import Mathlib

/-!
Shallow embedding of the betting-pool risk-analysis scripts
(`lp_simulation.py` and `whale_attack_simulation.py`).

Python floats are modelled as exact rationals (ℚ); the uniform random
draw of each trial is passed in explicitly as a rational in [0, 1),
making every function a pure function of its inputs, as the design
requires of an injectable random source.
-/

namespace LPSim

/-- Constant WINNER_SHARE = 0.55 from lp_simulation.py. -/
def WINNER_SHARE : ℚ := 55/100

/-- Constant PROTOCOL_CUT = 0.45 from lp_simulation.py. -/
def PROTOCOL_CUT : ℚ := 45/100

/-- Constant SEASON_POOL_SHARE = 0.02 from lp_simulation.py. -/
def SEASON_POOL_SHARE : ℚ := 2/100

/-- Constant LP_SHARE_OF_PROTOCOL = 0.53 from lp_simulation.py. -/
def LP_SHARE_OF_PROTOCOL : ℚ := 53/100

/-- Constant PROTOCOL_SHARE_OF_REVENUE = 0.45 from lp_simulation.py. -/
def PROTOCOL_SHARE_OF_REVENUE : ℚ := 45/100

/-- The PARLAY_MULTIPLIERS dict of lp_simulation.py (lines 17-28),
as a partial map from leg count to multiplier. -/
def PARLAY_MULTIPLIERS (n : ℤ) : Option ℚ :=
  if n = 1 then some 1
  else if n = 2 then some (115/100)
  else if n = 3 then some (1194/1000)
  else if n = 4 then some (1238/1000)
  else if n = 5 then some (1281/1000)
  else if n = 6 then some (1325/1000)
  else if n = 7 then some (1369/1000)
  else if n = 8 then some (1413/1000)
  else if n = 9 then some (1456/1000)
  else if n = 10 then some (15/10)
  else none

/-- The lookup `PARLAY_MULTIPLIERS.get(num_legs, 1.5)` of
lp_simulation.py line 52: dictionary lookup with default 1.5. -/
def parlay_multiplier_lookup (n : ℤ) : ℚ := (PARLAY_MULTIPLIERS n).getD (3/2)

/-- simulate_single_bet of lp_simulation.py (lines 30-58), with the
uniform draw made an explicit argument. The source returns
`(False, 0, 0, 0)` early when the draw is not below the win
probability; here the two branches of that early return are the two
arms of the `if`. Returns (user_won, base_payout, final_payout,
parlay_bonus). -/
def simulate_single_bet (num_legs : ℤ) (draw stake : ℚ) : Bool × ℚ × ℚ × ℚ :=
  let win_probability : ℚ := (1/3 : ℚ) ^ num_legs
  if draw < win_probability then
    let base_multiplier : ℚ := (2 : ℚ) ^ num_legs
    let base_payout := stake * base_multiplier
    let parlay_multiplier := parlay_multiplier_lookup num_legs
    let final_payout := base_payout * parlay_multiplier
    let parlay_bonus := base_payout * (parlay_multiplier - 1)
    (true, base_payout, final_payout, parlay_bonus)
  else
    (false, 0, 0, 0)

/-- The running accumulator of run_simulation (lp_simulation.py lines
76-81): total stakes, total payouts, total parlay bonuses paid from
reserve, total losing-pool revenue, and the win counter. -/
structure SimState where
  total_user_stakes : ℚ
  total_user_payouts : ℚ
  total_protocol_bonus_paid : ℚ
  total_pool_revenue : ℚ
  user_wins : ℕ
deriving DecidableEq, Repr

/-- The all-zero accumulator the loop starts from. -/
def initState : SimState :=
  { total_user_stakes := 0
    total_user_payouts := 0
    total_protocol_bonus_paid := 0
    total_pool_revenue := 0
    user_wins := 0 }

/-- One iteration of the trial loop of run_simulation (lp_simulation.py
lines 83-99): stake is the constant 100, the trial's leg count and
uniform draw come in as the pair `t`; the stake is always added to
total_user_stakes, and then either the payout fields (on a win) or the
pool revenue (on a loss) are credited. -/
def step (s : SimState) (t : ℤ × ℚ) : SimState :=
  let r := simulate_single_bet t.1 t.2 100
  if r.1 then
    { s with
        total_user_stakes := s.total_user_stakes + 100
        user_wins := s.user_wins + 1
        total_user_payouts := s.total_user_payouts + r.2.2.1
        total_protocol_bonus_paid := s.total_protocol_bonus_paid + r.2.2.2 }
  else
    { s with
        total_user_stakes := s.total_user_stakes + 100
        total_pool_revenue := s.total_pool_revenue + 100 }

/-- The trial loop of run_simulation, folding `step` over `n` trials
whose leg counts and draws are supplied by the injected sources `legs`
and `draw` (trial `i` uses `legs i` and `draw i`). -/
def run_trials (n : ℕ) (legs : ℕ → ℤ) (draw : ℕ → ℚ) : SimState :=
  ((List.range n).map (fun i => (legs i, draw i))).foldl step initState

/-- Net revenue computed at lp_simulation.py line 106:
losing-pool revenue minus the non-bonus part of payouts. -/
def net_revenue_of (s : SimState) : ℚ :=
  s.total_pool_revenue - (s.total_user_payouts - s.total_protocol_bonus_paid)

/-- LP revenue share (lp_simulation.py line 110). -/
def lp_revenue_share_of (s : SimState) : ℚ :=
  net_revenue_of s * LP_SHARE_OF_PROTOCOL

/-- LP P&L (lp_simulation.py line 115): exactly the LP revenue share;
no bonus cost is deducted. -/
def lp_pnl_of (s : SimState) : ℚ := lp_revenue_share_of s

/-- The derived quantities run_simulation computes after the loop
(lp_simulation.py lines 102-116 and the returned dict, lines 173-179),
together with the intermediate revenue shares. -/
structure SimResult where
  user_pnl : ℚ
  net_revenue : ℚ
  protocol_revenue_share : ℚ
  lp_revenue_share : ℚ
  season_revenue_share : ℚ
  lp_pnl : ℚ
  protocol_pnl : ℚ
  user_win_rate : ℚ
deriving DecidableEq, Repr

/-- Failure kinds of run_simulation. `zeroDivision` models Python's
ZeroDivisionError, raised by the percentage statistics
(lp_simulation.py line 126 divides by total_user_stakes) when no stake
was accumulated. `invalidParameter` is Modelled from the spec: the
spec's error taxonomy names an InvalidParameter failure for malformed
input, but no validation code exists in the source, which never raises
it. -/
inductive SimError where
  | zeroDivision : SimError
  | invalidParameter : SimError
deriving DecidableEq, Repr

/-- run_simulation of lp_simulation.py (lines 61-179), with the random
sources injected and `num_rounds` an integer as in the source
(`range(num_rounds)` iterates `max(num_rounds, 0)` times). After the
loop it derives the P&L quantities of lines 102-116; the first
statistic printed divides by total_user_stakes (line 126), so when
that total is zero the call dies with ZeroDivisionError and produces
no result. -/
def run_simulation (num_rounds : ℤ) (legs : ℕ → ℤ) (draw : ℕ → ℚ) :
    Except SimError SimResult :=
  let s := run_trials num_rounds.toNat legs draw
  if s.total_user_stakes = 0 then
    Except.error SimError.zeroDivision
  else
    Except.ok
      { user_pnl := s.total_user_payouts - s.total_user_stakes
        net_revenue := net_revenue_of s
        protocol_revenue_share := net_revenue_of s * PROTOCOL_SHARE_OF_REVENUE
        lp_revenue_share := lp_revenue_share_of s
        season_revenue_share := net_revenue_of s * SEASON_POOL_SHARE
        lp_pnl := lp_pnl_of s
        protocol_pnl :=
          net_revenue_of s * PROTOCOL_SHARE_OF_REVENUE - s.total_protocol_bonus_paid
        user_win_rate := (s.user_wins : ℚ) / (num_rounds : ℚ) }

/-- The LP under-compensation check of the main block
(lp_simulation.py line 196): `lp_pnl < user_pnl * 0.1`, with no
condition on the sign of user_pnl. -/
def lp_warning (r : SimResult) : Bool :=
  decide (r.lp_pnl < r.user_pnl * (1/10))

/-- Reserve bonus demanded by one winning bet: base payout
`stake * 2^legCount` times the bonus fraction of the multiplier. This
is the payout-model formula shared by simulate_single_bet (lines
48-56 of lp_simulation.py) and the whale-attack scenarios. -/
def reserveBonus (stake : ℚ) (num_legs : ℕ) (mult : ℚ) : ℚ :=
  stake * 2 ^ num_legs * (mult - 1)

/-- Circuit-breaker comparison used by the whale-attack scenarios
(whale_attack_simulation.py lines 72, 120, 156): the bonus total is
flagged when it exceeds the threshold; the source instantiates the
threshold at the constant 9000. -/
def breach (threshold bonus : ℚ) : Bool := decide (threshold < bonus)

/-- Shortfall reported on a breach (whale_attack_simulation.py lines
74, 121, 158): bonus minus threshold. -/
def shortfall (threshold bonus : ℚ) : ℚ := bonus - threshold

/-- simulate_lucky_streak of whale_attack_simulation.py (lines
86-125): a deterministic scenario with no random draw; K winners each
at the same stake, legs and multiplier. The source fixes stake = 1000,
num_winners = 10, num_legs = 10, parlay_multiplier = 1.5; the
computation is kept parametric in those local constants. Returns the
total reserve bonus. -/
def simulate_lucky_streak (stake : ℚ) (num_winners : ℕ) (num_legs : ℕ)
    (parlay_multiplier : ℚ) : ℚ :=
  let base_multiplier : ℚ := 2 ^ num_legs
  let base_payout := stake * base_multiplier
  let parlay_bonus := base_payout * (parlay_multiplier - 1)
  let total_bonus := parlay_bonus * (num_winners : ℚ)
  total_bonus

/-- Maximum stake assumed by test_max_single_bet
(whale_attack_simulation.py line 136). -/
def max_bet_stake : ℚ := 50000

/-- Base payout of test_max_single_bet: stake times 2^10
(whale_attack_simulation.py lines 140-141). -/
def max_bet_base_payout : ℚ := max_bet_stake * 2 ^ (10 : ℕ)

/-- Final payout of test_max_single_bet: base payout times the 1.5
multiplier (whale_attack_simulation.py line 142). -/
def max_bet_final_payout : ℚ := max_bet_base_payout * (3/2)

/-- Reserve bonus of test_max_single_bet
(whale_attack_simulation.py line 143). -/
def max_bet_parlay_bonus : ℚ := max_bet_base_payout * (3/2 - 1)



lemma PARLAY_MULTIPLIERS_some (n : ℤ) (h1 : 1 ≤ n) (h2 : n ≤ 10) :
    PARLAY_MULTIPLIERS n = some (parlay_multiplier_lookup n) := by
  interval_cases n <;> rfl

/-- C1: for legCount in [1,10] and stake > 0, a draw not below
(1/3)^legCount loses with all payout fields zero; a draw below it wins
with basePayout = stake * 2^legCount, finalPayout = basePayout times
the table multiplier, and reserveBonus = basePayout * (multiplier - 1)
= finalPayout - basePayout. -/
theorem c1_payout_model (n : ℤ) (h1 : 1 ≤ n) (h2 : n ≤ 10) (stake draw : ℚ)
    (_hs : 0 < stake) :
    (¬ draw < (1/3 : ℚ) ^ n → simulate_single_bet n draw stake = (false, 0, 0, 0)) ∧
    (draw < (1/3 : ℚ) ^ n →
      ∃ m, PARLAY_MULTIPLIERS n = some m ∧
        simulate_single_bet n draw stake =
          (true, stake * 2 ^ n, stake * 2 ^ n * m, stake * 2 ^ n * (m - 1)) ∧
        stake * 2 ^ n * (m - 1) = stake * 2 ^ n * m - stake * 2 ^ n) := by
  constructor
  · intro h
    simp only [simulate_single_bet]
    rw [if_neg h]
  · intro h
    refine ⟨parlay_multiplier_lookup n, PARLAY_MULTIPLIERS_some n h1 h2, ?_, by ring⟩
    simp only [simulate_single_bet]
    rw [if_pos h]

/-- Witness for C1 at legCount = 3, stake = 100, draw = 1 (a loss,
since (1/3)^3 < 1). -/
theorem c1_payout_model_witness :
    (¬ (1 : ℚ) < (1/3 : ℚ) ^ (3 : ℤ) →
      simulate_single_bet 3 1 100 = (false, 0, 0, 0)) ∧
    ((1 : ℚ) < (1/3 : ℚ) ^ (3 : ℤ) →
      ∃ m, PARLAY_MULTIPLIERS 3 = some m ∧
        simulate_single_bet 3 1 100 =
          (true, 100 * 2 ^ (3 : ℤ), 100 * 2 ^ (3 : ℤ) * m,
            100 * 2 ^ (3 : ℤ) * (m - 1)) ∧
        (100 : ℚ) * 2 ^ (3 : ℤ) * (m - 1) =
          100 * 2 ^ (3 : ℤ) * m - 100 * 2 ^ (3 : ℤ)) :=
  c1_payout_model 3 (by decide) (by decide) 100 1 (by norm_num)

/-- C4 counterexample: simulate_single_bet at legCount = 0 does not
fail; it silently processes the input and returns a winning outcome
(the win probability (1/3)^0 = 1 always exceeds the draw), paying
basePayout = stake, finalPayout = 150 and reserveBonus = 50 at
stake = 100, draw = 9/10. -/
theorem c4_counterexample :
    simulate_single_bet 0 (9/10) 100 = (true, 100, 150, 50) := by
  norm_num [simulate_single_bet, parlay_multiplier_lookup, PARLAY_MULTIPLIERS]

/-- C4 amended: simulate_single_bet performs no input validation and
cannot fail; legCount = 0 is processed as a guaranteed win (win
probability (1/3)^0 = 1), with the fallback multiplier 3/2 applied,
returning basePayout = stake, finalPayout = (3/2) * stake and
reserveBonus = (1/2) * stake for every stake and every draw in [0,1). -/
theorem c4_no_validation (stake draw : ℚ) (h : draw < 1) :
    simulate_single_bet 0 draw stake = (true, stake, stake * (3/2), stake * (1/2)) := by
  simp only [simulate_single_bet]
  rw [if_pos (by simpa using h)]
  norm_num [parlay_multiplier_lookup, PARLAY_MULTIPLIERS]

/-- Witness for C4's amended theorem at stake = 7, draw = 1/2. -/
theorem c4_no_validation_witness :
    simulate_single_bet 0 (1/2) 7 = (true, 7, 7 * (3/2), 7 * (1/2)) :=
  c4_no_validation 7 (1/2) (by norm_num)

/-- C7: the maximum-single-bet scenario computes basePayout =
51,200,000, finalPayout = 76,800,000 and reserveBonus = 25,600,000;
for every threshold at most 9,000 the bonus breaches the circuit
breaker and the shortfall is the bonus minus the threshold. -/
theorem c7_max_single_bet (t : ℚ) (ht : t ≤ 9000) :
    max_bet_base_payout = 51200000 ∧
    max_bet_final_payout = 76800000 ∧
    max_bet_parlay_bonus = 25600000 ∧
    breach t max_bet_parlay_bonus = true ∧
    shortfall t max_bet_parlay_bonus = max_bet_parlay_bonus - t := by
  have hb : max_bet_parlay_bonus = 25600000 := by
    norm_num [max_bet_parlay_bonus, max_bet_base_payout, max_bet_stake]
  refine ⟨by norm_num [max_bet_base_payout, max_bet_stake],
    by norm_num [max_bet_final_payout, max_bet_base_payout, max_bet_stake],
    hb, ?_, rfl⟩
  rw [breach, hb]
  simp only [decide_eq_true_eq]
  linarith

/-- Witness for C7 at threshold = 9000. -/
theorem c7_max_single_bet_witness :
    max_bet_base_payout = 51200000 ∧
    max_bet_final_payout = 76800000 ∧
    max_bet_parlay_bonus = 25600000 ∧
    breach 9000 max_bet_parlay_bonus = true ∧
    shortfall 9000 max_bet_parlay_bonus = max_bet_parlay_bonus - 9000 :=
  c7_max_single_bet 9000 le_rfl

/-- C8: the lucky-streak scenario is a pure function of its inputs (no
random draw appears in its definition); for K winners at any stake,
leg count and multiplier, its total equals K times the per-winner
reserve bonus stake * 2^legs * (mult - 1); at the source's constants
(stake 1000, 10 winners, 10 legs, multiplier 3/2) the total is
5,120,000, which breaches the 9,000 circuit breaker. -/
theorem c8_lucky_streak :
    (∀ (stake : ℚ) (k num_legs : ℕ) (mult : ℚ),
      simulate_lucky_streak stake k num_legs mult =
        (k : ℚ) * reserveBonus stake num_legs mult) ∧
    simulate_lucky_streak 1000 10 10 (3/2) = 5120000 ∧
    breach 9000 (simulate_lucky_streak 1000 10 10 (3/2)) = true := by
  refine ⟨fun stake k num_legs mult => ?_, ?_, ?_⟩
  · simp only [simulate_lucky_streak, reserveBonus]
    ring
  · norm_num [simulate_lucky_streak]
  · norm_num [breach, simulate_lucky_streak]

set_option maxHeartbeats 2000000 in
/-- C9: the multiplier table is monotonically non-decreasing over leg
counts 1..10, its entry for leg count 1 is exactly 1, every leg count
outside the table domain resolves through the lookup's default to 3/2,
and 3/2 is the table's maximum defined multiplier. -/
theorem c9_multiplier_table :
    (∀ i j : ℤ, 1 ≤ i → i ≤ j → j ≤ 10 →
      parlay_multiplier_lookup i ≤ parlay_multiplier_lookup j) ∧
    PARLAY_MULTIPLIERS 1 = some 1 ∧
    (∀ n : ℤ, n < 1 ∨ 10 < n →
      PARLAY_MULTIPLIERS n = none ∧ parlay_multiplier_lookup n = 3/2) ∧
    (∀ n m, PARLAY_MULTIPLIERS n = some m → m ≤ 3/2) := by
  refine ⟨fun i j h1 h2 h3 => ?_, rfl, fun n hn => ?_, fun n m h => ?_⟩
  · have h4 : 1 ≤ j := le_trans h1 h2
    have h5 : i ≤ 10 := le_trans h2 h3
    interval_cases i <;> interval_cases j <;>
      norm_num [parlay_multiplier_lookup, PARLAY_MULTIPLIERS]
  · have e : PARLAY_MULTIPLIERS n = none := by
      simp only [PARLAY_MULTIPLIERS]
      split_ifs <;> first | rfl | (exfalso; omega)
    exact ⟨e, by rw [parlay_multiplier_lookup, e]; rfl⟩
  · simp only [PARLAY_MULTIPLIERS] at h
    split_ifs at h <;> (try cases h) <;> norm_num

/-- Witness for C9: table entries 2 and 7 are ordered, leg count 0
resolves to the 3/2 default, and the entry for 9 is at most 3/2. -/
theorem c9_multiplier_table_witness :
    parlay_multiplier_lookup 2 ≤ parlay_multiplier_lookup 7 ∧
    (PARLAY_MULTIPLIERS 0 = none ∧ parlay_multiplier_lookup 0 = 3/2) ∧
    (1456/1000 : ℚ) ≤ 3/2 :=
  ⟨c9_multiplier_table.1 2 7 (by decide) (by decide) (by decide),
   c9_multiplier_table.2.2.1 0 (Or.inl (by decide)),
   c9_multiplier_table.2.2.2 9 (1456/1000) rfl⟩

/-- Concrete one-trial run used by witnesses: the single trial is a
1-leg bet with draw 0, a win paying 200 on a 100 stake. -/
def demo_result : SimResult :=
  { user_pnl := 100
    net_revenue := -200
    protocol_revenue_share := -90
    lp_revenue_share := -106
    season_revenue_share := -4
    lp_pnl := -106
    protocol_pnl := -90
    user_win_rate := 1 }

lemma run_simulation_one_eval :
    run_simulation 1 (fun _ => 1) (fun _ => 0) = Except.ok demo_result := by
  norm_num [run_simulation, run_trials, step, initState, simulate_single_bet,
    parlay_multiplier_lookup, PARLAY_MULTIPLIERS, net_revenue_of,
    lp_revenue_share_of, lp_pnl_of, LP_SHARE_OF_PROTOCOL,
    PROTOCOL_SHARE_OF_REVENUE, SEASON_POOL_SHARE, List.range_succ,
    demo_result, SimResult.mk.injEq]

/-- C2: every successful run derives netRevenue, protocolPnL and
userPnL from the final accumulator exactly by the equations
netRevenue = pool revenue - (payouts - bonuses),
protocolPnL = netRevenue * protocol share - bonuses,
userPnL = payouts - stakes. -/
theorem c2_revenue_equations (num_rounds : ℤ) (legs : ℕ → ℤ) (draw : ℕ → ℚ)
    (r : SimResult) (h : run_simulation num_rounds legs draw = Except.ok r) :
    r.net_revenue =
      (run_trials num_rounds.toNat legs draw).total_pool_revenue -
        ((run_trials num_rounds.toNat legs draw).total_user_payouts -
          (run_trials num_rounds.toNat legs draw).total_protocol_bonus_paid) ∧
    r.protocol_pnl = r.net_revenue * PROTOCOL_SHARE_OF_REVENUE -
      (run_trials num_rounds.toNat legs draw).total_protocol_bonus_paid ∧
    r.user_pnl = (run_trials num_rounds.toNat legs draw).total_user_payouts -
      (run_trials num_rounds.toNat legs draw).total_user_stakes := by
  simp only [run_simulation] at h
  by_cases hz : (run_trials num_rounds.toNat legs draw).total_user_stakes = 0
  · rw [if_pos hz] at h
    exact Except.noConfusion h
  · rw [if_neg hz] at h
    injection h with h
    subst h
    exact ⟨rfl, rfl, rfl⟩

/-- Witness for C2: the one-trial run evaluated concretely. -/
theorem c2_revenue_equations_witness :
    demo_result.net_revenue =
      (run_trials (1 : ℤ).toNat (fun _ => 1) (fun _ => 0)).total_pool_revenue -
        ((run_trials (1 : ℤ).toNat (fun _ => 1) (fun _ => 0)).total_user_payouts -
          (run_trials (1 : ℤ).toNat (fun _ => 1) (fun _ => 0)).total_protocol_bonus_paid) ∧
    demo_result.protocol_pnl = demo_result.net_revenue * PROTOCOL_SHARE_OF_REVENUE -
      (run_trials (1 : ℤ).toNat (fun _ => 1) (fun _ => 0)).total_protocol_bonus_paid ∧
    demo_result.user_pnl =
      (run_trials (1 : ℤ).toNat (fun _ => 1) (fun _ => 0)).total_user_payouts -
        (run_trials (1 : ℤ).toNat (fun _ => 1) (fun _ => 0)).total_user_stakes :=
  c2_revenue_equations 1 (fun _ => 1) (fun _ => 0) demo_result run_simulation_one_eval

/-- C3: LP P&L is exactly the LP revenue share, netRevenue times the
LP fraction, and depends on the accumulator only through netRevenue:
two accumulator states with equal netRevenue but different reserve
bonus totals yield the same LP P&L. -/
theorem c3_lp_shielding (s1 s2 : SimState)
    (hnet : net_revenue_of s1 = net_revenue_of s2)
    (_hbonus : s1.total_protocol_bonus_paid ≠ s2.total_protocol_bonus_paid) :
    lp_pnl_of s1 = lp_pnl_of s2 ∧
    lp_pnl_of s1 = lp_revenue_share_of s1 ∧
    lp_revenue_share_of s1 = net_revenue_of s1 * LP_SHARE_OF_PROTOCOL := by
  refine ⟨?_, rfl, rfl⟩
  simp only [lp_pnl_of, lp_revenue_share_of, hnet]

/-- Witness for C3: two concrete accumulators, both with netRevenue 0,
with bonus totals 0 and 5. -/
theorem c3_lp_shielding_witness :
    lp_pnl_of ⟨0, 0, 0, 0, 0⟩ = lp_pnl_of ⟨0, 5, 5, 0, 0⟩ ∧
    lp_pnl_of ⟨0, 0, 0, 0, 0⟩ = lp_revenue_share_of ⟨0, 0, 0, 0, 0⟩ ∧
    lp_revenue_share_of ⟨0, 0, 0, 0, 0⟩ =
      net_revenue_of ⟨0, 0, 0, 0, 0⟩ * LP_SHARE_OF_PROTOCOL :=
  c3_lp_shielding ⟨0, 0, 0, 0, 0⟩ ⟨0, 5, 5, 0, 0⟩
    (by norm_num [net_revenue_of]) (by norm_num)

/-- C5 counterexample: at roundCount 0 the run fails, but with the
division-by-zero error of the percentage statistics, not with
InvalidParameter. -/
theorem c5_counterexample :
    run_simulation 0 (fun _ => 1) (fun _ => 0) = Except.error SimError.zeroDivision ∧
    SimError.zeroDivision ≠ SimError.invalidParameter := by
  constructor
  · simp only [run_simulation, run_trials, Int.toNat_zero, List.range_zero,
      List.map_nil, List.foldl_nil]
    rw [if_pos (show initState.total_user_stakes = (0 : ℚ) from rfl)]
  · decide

/-- C5 amended: for every roundCount at most 0 the trial loop runs zero
times, the accumulated stake is zero, and the run fails with the
ZeroDivisionError raised by the first percentage statistic; no result
is produced. -/
theorem c5_zero_rounds (num_rounds : ℤ) (h : num_rounds ≤ 0)
    (legs : ℕ → ℤ) (draw : ℕ → ℚ) :
    run_simulation num_rounds legs draw = Except.error SimError.zeroDivision := by
  have ht : num_rounds.toNat = 0 := Int.toNat_eq_zero.mpr h
  simp only [run_simulation, run_trials, ht, List.range_zero, List.map_nil,
    List.foldl_nil]
  rw [if_pos (show initState.total_user_stakes = (0 : ℚ) from rfl)]

/-- Witness for C5's amended theorem at roundCount -3. -/
theorem c5_zero_rounds_witness :
    run_simulation (-3) (fun _ => 1) (fun _ => 0) = Except.error SimError.zeroDivision :=
  c5_zero_rounds (-3) (by decide) (fun _ => 1) (fun _ => 0)

/-- C6 counterexample: a one-trial run in which the user nets +100
(userPnL ≥ 0) still produces the LP under-compensation warning, because
the source checks lp_pnl < user_pnl * 0.1 with no guard on the sign of
user_pnl. -/
theorem c6_counterexample :
    run_simulation 1 (fun _ => 1) (fun _ => 0) = Except.ok demo_result ∧
    0 ≤ demo_result.user_pnl ∧
    lp_warning demo_result = true := by
  refine ⟨run_simulation_one_eval, by norm_num [demo_result], ?_⟩
  norm_num [lp_warning, demo_result]

/-- C6 amended: the LP under-compensation warning is flagged exactly
when lpPnL < userPnL * 0.10, with no condition on the sign of userPnL;
in particular it is not skipped when userPnL ≥ 0. -/
theorem c6_lp_warning_iff (num_rounds : ℤ) (legs : ℕ → ℤ) (draw : ℕ → ℚ)
    (r : SimResult) (_h : run_simulation num_rounds legs draw = Except.ok r) :
    lp_warning r = true ↔ r.lp_pnl < r.user_pnl * (1/10) := by
  simp [lp_warning]

/-- Witness for C6's amended theorem on the one-trial run. -/
theorem c6_lp_warning_iff_witness :
    lp_warning demo_result = true ↔
      demo_result.lp_pnl < demo_result.user_pnl * (1/10) :=
  c6_lp_warning_iff 1 (fun _ => 1) (fun _ => 0) demo_result run_simulation_one_eval

lemma step_win (s : SimState) (t : ℤ × ℚ)
    (h : (simulate_single_bet t.1 t.2 100).1 = true) :
    step s t =
      { s with
          total_user_stakes := s.total_user_stakes + 100
          user_wins := s.user_wins + 1
          total_user_payouts :=
            s.total_user_payouts + (simulate_single_bet t.1 t.2 100).2.2.1
          total_protocol_bonus_paid :=
            s.total_protocol_bonus_paid + (simulate_single_bet t.1 t.2 100).2.2.2 } := by
  simp [step, h]

lemma step_loss (s : SimState) (t : ℤ × ℚ)
    (h : (simulate_single_bet t.1 t.2 100).1 = false) :
    step s t =
      { s with
          total_user_stakes := s.total_user_stakes + 100
          total_pool_revenue := s.total_pool_revenue + 100 } := by
  simp [step, h]

lemma foldl_step_spec (l : List (ℤ × ℚ)) (s : SimState) :
    ∃ w : ℕ, w ≤ l.length ∧
      (l.foldl step s).total_user_stakes = s.total_user_stakes + 100 * l.length ∧
      (l.foldl step s).user_wins = s.user_wins + w ∧
      (l.foldl step s).total_pool_revenue =
        s.total_pool_revenue + 100 * ((l.length - w : ℕ) : ℚ) := by
  induction l generalizing s with
  | nil => exact ⟨0, by simp⟩
  | cons t l ih =>
    obtain ⟨w, hw, h1, h2, h3⟩ := ih (step s t)
    by_cases hwin : (simulate_single_bet t.1 t.2 100).1 = true
    · refine ⟨w + 1, by simpa using Nat.succ_le_succ hw, ?_, ?_, ?_⟩
      · rw [List.foldl_cons, h1, step_win s t hwin]
        simp only [List.length_cons]
        push_cast
        ring
      · rw [List.foldl_cons, h2, step_win s t hwin]
        show s.user_wins + 1 + w = s.user_wins + (w + 1)
        omega
      · rw [List.foldl_cons, h3, step_win s t hwin]
        simp only [List.length_cons]
        have hx : l.length + 1 - (w + 1) = l.length - w := by omega
        rw [hx]
    · rw [Bool.not_eq_true] at hwin
      refine ⟨w, by simpa using Nat.le_succ_of_le hw, ?_, ?_, ?_⟩
      · rw [List.foldl_cons, h1, step_loss s t hwin]
        simp only [List.length_cons]
        push_cast
        ring
      · rw [List.foldl_cons, h2, step_loss s t hwin]
      · rw [List.foldl_cons, h3, step_loss s t hwin]
        simp only [List.length_cons]
        have hx : l.length + 1 - w = (l.length - w) + 1 := by omega
        rw [hx]
        push_cast
        ring

/-- C10: over any run with roundCount at least 1, each trial stakes
exactly 100 into exactly one bucket: the accumulator ends with
totalStaked = 100 * roundCount, losing-pool revenue
100 * (roundCount - winCount), and winCount at most roundCount. -/
theorem c10_conservation (num_rounds : ℤ) (legs : ℕ → ℤ) (draw : ℕ → ℚ)
    (h : 1 ≤ num_rounds) :
    (run_trials num_rounds.toNat legs draw).total_user_stakes =
      100 * (num_rounds : ℚ) ∧
    (run_trials num_rounds.toNat legs draw).total_pool_revenue =
      100 * ((num_rounds : ℚ) -
        ((run_trials num_rounds.toNat legs draw).user_wins : ℚ)) ∧
    ((run_trials num_rounds.toNat legs draw).user_wins : ℤ) ≤ num_rounds := by
  obtain ⟨w, hw, h1, h2, h3⟩ :=
    foldl_step_spec ((List.range num_rounds.toNat).map (fun i => (legs i, draw i)))
      initState
  have hlen : ((List.range num_rounds.toNat).map
      (fun i => (legs i, draw i))).length = num_rounds.toNat := by
    simp
  have hcast : ((num_rounds.toNat : ℕ) : ℚ) = (num_rounds : ℚ) := by
    have := Int.toNat_of_nonneg (le_trans zero_le_one h)
    exact_mod_cast congrArg (fun z : ℤ => (z : ℚ)) this
  rw [hlen] at hw h1 h3
  refine ⟨?_, ?_, ?_⟩
  · rw [run_trials, h1, initState]
    rw [hcast]
    norm_num
  · rw [run_trials, h3, h2, initState]
    simp only
    rw [Nat.cast_sub hw]
    rw [hcast]
    push_cast
    ring
  · rw [run_trials, h2, initState]
    simp only
    have : (w : ℤ) ≤ (num_rounds.toNat : ℤ) := by exact_mod_cast hw
    rw [Int.toNat_of_nonneg (le_trans zero_le_one h)] at this
    simpa using this

/-- Witness for C10 on a concrete two-round run. -/
theorem c10_conservation_witness :
    (run_trials (2 : ℤ).toNat (fun _ => 1) (fun _ => 0)).total_user_stakes =
      100 * ((2 : ℤ) : ℚ) ∧
    (run_trials (2 : ℤ).toNat (fun _ => 1) (fun _ => 0)).total_pool_revenue =
      100 * (((2 : ℤ) : ℚ) -
        ((run_trials (2 : ℤ).toNat (fun _ => 1) (fun _ => 0)).user_wins : ℚ)) ∧
    ((run_trials (2 : ℤ).toNat (fun _ => 1) (fun _ => 0)).user_wins : ℤ) ≤ 2 :=
  c10_conservation 2 (fun _ => 1) (fun _ => 0) (by decide)

end LPSim
